import Mathlib

/-
Verification development for the flowercare-exporter repository
(collector.go and main.go).

Modelling conventions:
- Go time.Time values are modelled as Int nanoseconds relative to the Unix
  epoch.  The zero value of time.Time (January 1, year 1 UTC) is the constant
  goZeroTimeNs below.  Go time.Since and time.Time.Sub return an int64
  duration and saturate at the int64 bounds (minDuration, maxDuration); the
  function timeSub models that saturating subtraction.
- Go float64 values are modelled as exact rationals.
- The prometheus channel is modelled as the list of metrics sent so far, in
  send order.  Metric construction (prometheus.NewConstMetric) is an external
  collaborator that may fail; its possible failures are modelled by a
  function fails from metric names to Bool, so theorems quantify over every
  possible failure pattern.
- The device reader (the miflora library) is an external collaborator; its
  outcomes are passed to Collect as Except values for the firmware read and
  the sensors read.
- Collect calls the clock three times (the staleness check, the capture time
  inside readData, and the freshness re-check before emission); these three
  reads are the parameters now1, now2 and now3.
- The constant label carrying the lowercased MAC address is attached to
  every descriptor alike and never varies, so it is omitted from the metric
  model; the variable label of the info metric is kept.
-/

namespace Flowercare

/-- Largest int64 value; Go saturates time differences at this duration. -/
def maxDuration : Int := 9223372036854775807

/-- Smallest int64 value; lower saturation bound for time differences. -/
def minDuration : Int := -9223372036854775808

/-- Nanoseconds from the zero value of Go time.Time (January 1, year 1 UTC)
to the Unix epoch is 62135596800 seconds, so the zero value itself sits at
this (negative) coordinate. -/
def goZeroTimeNs : Int := -62135596800000000000

/-- Nanoseconds in one second. -/
def nsPerSecond : Int := 1000000000

/-- Go time.Time.Sub (and hence time.Since): the int64 difference of the two
instants, saturating at the int64 bounds instead of overflowing. -/
def timeSub (t u : Int) : Int := max (min (t - u) maxDuration) minDuration

/-- Go time.Time.Unix: whole seconds since the Unix epoch, i.e. floor
division of the nanosecond coordinate by nsPerSecond. -/
def timeUnix (t : Int) : Int := Int.fdiv t nsPerSecond

/-- Firmware data returned by the device library (collector.go line 22). -/
structure Firmware where
  Version : String
  Battery : Nat
deriving DecidableEq

/-- Sensor data returned by the device library (collector.go line 23). -/
structure Sensors where
  Temperature : ℚ
  Moisture : Nat
  Light : Nat
  Conductivity : Nat
deriving DecidableEq

/-- Struct sensorData of collector.go lines 20-24. -/
structure sensorData where
  Time : Int
  Firmware : Flowercare.Firmware
  Sensors : Flowercare.Sensors
deriving DecidableEq

/-- Conversion factor from microsiemens per centimeter to siemens per meter
(collector.go line 17, the Go literal 0.0001). -/
def factorConductivity : ℚ := 1 / 10000

/-- Names of the nine exposed metrics (collector.go lines 53-91). -/
inductive MetricName where
  | up
  | scrapeErrorsTotal
  | scrapeTimestamp
  | info
  | batteryPercent
  | conductivitySm
  | brightnessLux
  | moisturePercent
  | temperatureCelsius
deriving DecidableEq

/-- A metric as sent on the channel: descriptor name, gauge value, variable
label values. -/
structure Metric where
  name : MetricName
  value : ℚ
  labels : List String
deriving DecidableEq

/-- Error text used by sendMetric when metric construction fails; Go formats
the descriptor and the cause into the message, the model keeps a fixed
marker string. -/
def errMsg : String := "can not create metric"

/-- Function sendMetric of collector.go lines 193-201: build a constant
metric and send it; if construction fails, return the error without sending
anything. -/
def sendMetric (fails : MetricName → Bool) (ch : List Metric) (name : MetricName)
    (value : ℚ) (labels : List String) : Except String (List Metric) :=
  if fails name then Except.error errMsg
  else Except.ok (ch ++ [{ name := name, value := value, labels := labels }])

/-- Table of physical-quantity gauges from collector.go lines 140-164, in
source order: battery, conductivity, light, moisture, temperature. -/
def quantityRows (data : sensorData) : List (MetricName × ℚ) :=
  [ (MetricName.batteryPercent, (data.Firmware.Battery : ℚ)),
    (MetricName.conductivitySm, (data.Sensors.Conductivity : ℚ) * factorConductivity),
    (MetricName.brightnessLux, (data.Sensors.Light : ℚ)),
    (MetricName.moisturePercent, (data.Sensors.Moisture : ℚ)),
    (MetricName.temperatureCelsius, data.Sensors.Temperature) ]

/-- Loop body of collector.go lines 140-168: send each table row in order,
stopping at the first construction failure; the channel contents so far and
the error, if any, are returned. -/
def sendRows (fails : MetricName → Bool) (ch : List Metric) :
    List (MetricName × ℚ) → List Metric × Option String
  | [] => (ch, none)
  | r :: rest =>
    match sendMetric fails ch r.1 r.2 [] with
    | Except.error e => (ch, some e)
    | Except.ok ch2 => sendRows fails ch2 rest

/-- Function collectData of collector.go lines 131-171: send the freshness
timestamp, the info metric, then the quantity table; abort at the first
construction failure and hand the error back to the caller. -/
def collectData (fails : MetricName → Bool) (ch : List Metric) (data : sensorData) :
    List Metric × Option String :=
  match sendMetric fails ch MetricName.scrapeTimestamp ((timeUnix data.Time : Int) : ℚ) [] with
  | Except.error e => (ch, some e)
  | Except.ok ch1 =>
    match sendMetric fails ch1 MetricName.info 1 [data.Firmware.Version] with
    | Except.error e => (ch1, some e)
    | Except.ok ch2 => sendRows fails ch2 (quantityRows data)

/-- Function readData of collector.go lines 173-191: read firmware, then
sensors, failing on the first error; on success capture the current time
(the now2 clock read) into the Time field. -/
def readData (now : Int) (fw : Except String Firmware) (ss : Except String Sensors) :
    Except String sensorData :=
  match fw with
  | Except.error e => Except.error ("can not read firmware: " ++ e)
  | Except.ok firmware =>
    match ss with
    | Except.error e => Except.error ("can not read sensors: " ++ e)
    | Except.ok sensors => Except.ok { Time := now, Firmware := firmware, Sensors := sensors }

/-- Immutable configuration part of struct flowercareCollector
(collector.go lines 26-29). -/
structure flowercareCollector where
  MacAddress : String
  Device : String
  CacheDuration : Int
deriving DecidableEq

/-- Mutable part of struct flowercareCollector: the cache field and the
current values of the up gauge and the scrape error counter. -/
structure CollectorState where
  cache : sensorData
  upValue : ℚ
  scrapeErrors : Nat
deriving DecidableEq

/-- State of a freshly constructed collector: zero-valued cache (the Time
field holds the zero value of time.Time), gauge at 0, counter at 0. -/
def initialState : CollectorState :=
  { cache := { Time := goZeroTimeNs,
               Firmware := { Version := "", Battery := 0 },
               Sensors := { Temperature := 0, Moisture := 0, Light := 0, Conductivity := 0 } },
    upValue := 0,
    scrapeErrors := 0 }

/-- Metric emitted for the up gauge (collector.go line 121). -/
def upMetricOf (s : CollectorState) : Metric :=
  { name := MetricName.up, value := s.upValue, labels := [] }

/-- Metric emitted for the scrape error counter (collector.go line 122). -/
def errorsMetricOf (s : CollectorState) : Metric :=
  { name := MetricName.scrapeErrorsTotal, value := (s.scrapeErrors : ℚ), labels := [] }

/-- Refresh block of Collect, collector.go lines 108-119: when the cache age
at the now1 clock read strictly exceeds CacheDuration, attempt a device
read; on failure bump the error counter, set the gauge to 0 and log; on
success set the gauge to 1 and replace the cache. -/
def refreshStep (c : flowercareCollector) (s : CollectorState) (now1 now2 : Int)
    (fw : Except String Firmware) (ss : Except String Sensors) :
    CollectorState × List String :=
  if timeSub now1 s.cache.Time > c.CacheDuration then
    match readData now2 fw ss with
    | Except.error e =>
        ({ s with scrapeErrors := s.scrapeErrors + 1, upValue := 0 },
         ["Error during scrape: " ++ e])
    | Except.ok data => ({ s with upValue := 1, cache := data }, [])
  else (s, [])

/-- Result of one Collect call: the new collector state, the metrics sent on
the channel in order, and the log lines written. -/
structure CollectResult where
  state : CollectorState
  metrics : List Metric
  logs : List String
deriving DecidableEq

/-- Method Collect of collector.go lines 107-129: run the refresh block,
always emit the up gauge and the error counter, then, when the cache age at
the now3 clock read is strictly below CacheDuration, run collectData and log
any error it returns. -/
def Collect (c : flowercareCollector) (s : CollectorState) (now1 now2 now3 : Int)
    (fw : Except String Firmware) (ss : Except String Sensors)
    (fails : MetricName → Bool) : CollectResult :=
  let step := refreshStep c s now1 now2 fw ss
  let ch : List Metric := [upMetricOf step.1, errorsMetricOf step.1]
  if timeSub now3 step.1.cache.Time < c.CacheDuration then
    let out := collectData fails ch step.1.cache
    { state := step.1,
      metrics := out.1,
      logs := step.2 ++ (match out.2 with
                         | some e => ["Error collecting metrics: " ++ e]
                         | none => []) }
  else
    { state := step.1, metrics := ch, logs := step.2 }

/-- One scrape request as seen by the collector: the three clock reads, the
device reader outcomes and the metric construction behaviour. -/
structure ScrapeEvent where
  now1 : Int
  now2 : Int
  now3 : Int
  fw : Except String Firmware
  ss : Except String Sensors
  fails : MetricName → Bool

/-- Run a sequence of scrape requests, threading the collector state. -/
def runTrace (c : flowercareCollector) (s : CollectorState) : List ScrapeEvent → CollectorState
  | [] => s
  | e :: rest => runTrace c (Collect c s e.now1 e.now2 e.now3 e.fw e.ss e.fails).state rest

/-- Configuration struct of main.go lines 13-18. -/
structure config where
  ListenAddr : String
  MacAddress : String
  Device : String
  CacheDuration : Int
deriving DecidableEq

/-- Default cache duration of main.go line 24: 2 minutes in nanoseconds. -/
def defaultCacheDuration : Int := 120000000000

/-- Function parseConfig of main.go lines 20-42.  Each parameter is the
command-line value when given, none when the flag is absent; absent flags
keep the defaults set in the struct literal (lines 21-25), with the MAC
address defaulting to the empty string. -/
def parseConfig (addr mac dev : Option String) (cd : Option Int) : Except String config :=
  let result : config :=
    { ListenAddr := addr.getD ":9294",
      MacAddress := mac.getD "",
      Device := dev.getD "hci0",
      CacheDuration := cd.getD defaultCacheDuration }
  if result.MacAddress.length = 0 then Except.error "need to provide a device address"
  else if result.Device.length = 0 then Except.error "need to provide a bluetooth device"
  else Except.ok result

/-- Outcome of main (main.go lines 44-63): on a configuration error the
process logs fatally and exits before the device reader, the collector or
the listener are created; otherwise it proceeds to serve with the parsed
configuration. -/
inductive MainOutcome where
  | configError (msg : String)
  | started (cfg : config)
deriving DecidableEq

/-- Startup control flow of main.go lines 44-48: parseConfig first, fail
fast on error, start serving on success. -/
def mainRun (addr mac dev : Option String) (cd : Option Int) : MainOutcome :=
  match parseConfig addr mac dev cd with
  | Except.error e => MainOutcome.configError e
  | Except.ok cfg => MainOutcome.started cfg

/-- Row list describing what collectData sends, in order, with the variable
labels attached to each row; derived from collector.go lines 132-164. -/
def allRows (data : sensorData) : List (MetricName × ℚ × List String) :=
  (MetricName.scrapeTimestamp, ((timeUnix data.Time : Int) : ℚ), ([] : List String)) ::
  (MetricName.info, 1, [data.Firmware.Version]) ::
  (quantityRows data).map (fun r => (r.1, r.2, ([] : List String)))

/-- Build the metric a row describes. -/
def mkMetric (r : MetricName × ℚ × List String) : Metric :=
  { name := r.1, value := r.2.1, labels := r.2.2 }

/-- List.all over a map between different element types. -/
theorem all_map_general {α β : Type} (f : α → β) (p : β → Bool) (l : List α) :
    (l.map f).all p = l.all (fun a => p (f a)) := by
  induction l with
  | nil => rfl
  | cons a l ih => simp [List.all_cons, ih]

/-- Characterization of the emission loop: it sends exactly the rows before
the first failing one, appended to the channel, and reports an error when
any row fails. -/
theorem sendRows_spec (fails : MetricName → Bool) (ch : List Metric)
    (rows : List (MetricName × ℚ)) :
    sendRows fails ch rows =
      (ch ++ (rows.takeWhile (fun r => !fails r.1)).map
          (fun r => { name := r.1, value := r.2, labels := [] }),
       if rows.all (fun r => !fails r.1) then none else some errMsg) := by
  induction rows generalizing ch with
  | nil => simp [sendRows]
  | cons r rest ih =>
    by_cases h : fails r.1 = true
    · simp [sendRows, sendMetric, h, List.takeWhile_cons, List.all_cons]
    · simp only [Bool.not_eq_true] at h
      cases hall : rest.all (fun r => !fails r.1) <;>
        simp [sendRows, sendMetric, h, ih, List.takeWhile_cons, List.all_cons, hall]

/-- Characterization of collectData: it sends exactly the rows of allRows
before the first failing one, appended to the channel, and returns an error
to its caller when any row fails. -/
theorem collectData_spec (fails : MetricName → Bool) (ch : List Metric) (data : sensorData) :
    collectData fails ch data =
      (ch ++ ((allRows data).takeWhile (fun r => !fails r.1)).map mkMetric,
       if (allRows data).all (fun r => !fails r.1) then none else some errMsg) := by
  by_cases h1 : fails MetricName.scrapeTimestamp = true
  · simp [collectData, sendMetric, allRows, h1, List.takeWhile_cons, List.all_cons, mkMetric]
  · simp only [Bool.not_eq_true] at h1
    by_cases h2 : fails MetricName.info = true
    · simp [collectData, sendMetric, allRows, h1, h2, List.takeWhile_cons, List.all_cons,
        mkMetric]
    · simp only [Bool.not_eq_true] at h2
      cases hall : (quantityRows data).all (fun r => !fails r.1) <;>
        simp [collectData, sendMetric, allRows, h1, h2, sendRows_spec,
          List.takeWhile_cons, List.all_cons, List.takeWhile_map, all_map_general,
          List.map_map, Function.comp, Function.comp_def, mkMetric, hall]

/-- Refresh block when the cache is not considered stale: nothing happens. -/
theorem refreshStep_skip (c : flowercareCollector) (s : CollectorState) (now1 now2 : Int)
    (fw : Except String Firmware) (ss : Except String Sensors)
    (h : ¬ timeSub now1 s.cache.Time > c.CacheDuration) :
    refreshStep c s now1 now2 fw ss = (s, []) := by
  simp [refreshStep, h]

/-- Refresh block on a failed device read: counter bumped, gauge zeroed,
cache untouched, failure logged. -/
theorem refreshStep_fail (c : flowercareCollector) (s : CollectorState) (now1 now2 : Int)
    (fw : Except String Firmware) (ss : Except String Sensors) (e : String)
    (h : timeSub now1 s.cache.Time > c.CacheDuration)
    (hr : readData now2 fw ss = Except.error e) :
    refreshStep c s now1 now2 fw ss =
      ({ s with scrapeErrors := s.scrapeErrors + 1, upValue := 0 },
       ["Error during scrape: " ++ e]) := by
  simp [refreshStep, h, hr]

/-- Refresh block on a successful device read: gauge set to 1 and cache
replaced. -/
theorem refreshStep_ok (c : flowercareCollector) (s : CollectorState) (now1 now2 : Int)
    (fw : Except String Firmware) (ss : Except String Sensors) (d : sensorData)
    (h : timeSub now1 s.cache.Time > c.CacheDuration)
    (hr : readData now2 fw ss = Except.ok d) :
    refreshStep c s now1 now2 fw ss = ({ s with upValue := 1, cache := d }, []) := by
  simp [refreshStep, h, hr]

/-- State returned by Collect is the state after the refresh block. -/
theorem Collect_state (c : flowercareCollector) (s : CollectorState) (now1 now2 now3 : Int)
    (fw : Except String Firmware) (ss : Except String Sensors) (fails : MetricName → Bool) :
    (Collect c s now1 now2 now3 fw ss fails).state = (refreshStep c s now1 now2 fw ss).1 := by
  unfold Collect
  dsimp only
  split <;> rfl

/-- Metrics emitted by Collect when the re-checked cache age is below the
cache duration: the up gauge, the error counter, then whatever collectData
sends. -/
theorem Collect_metrics_fresh (c : flowercareCollector) (s : CollectorState)
    (now1 now2 now3 : Int) (fw : Except String Firmware) (ss : Except String Sensors)
    (fails : MetricName → Bool)
    (h : timeSub now3 (refreshStep c s now1 now2 fw ss).1.cache.Time < c.CacheDuration) :
    (Collect c s now1 now2 now3 fw ss fails).metrics =
      (collectData fails
        [upMetricOf (refreshStep c s now1 now2 fw ss).1,
         errorsMetricOf (refreshStep c s now1 now2 fw ss).1]
        (refreshStep c s now1 now2 fw ss).1.cache).1 := by
  simp [Collect, h]

/-- Metrics emitted by Collect when the re-checked cache age is not below
the cache duration: only the up gauge and the error counter. -/
theorem Collect_metrics_stale (c : flowercareCollector) (s : CollectorState)
    (now1 now2 now3 : Int) (fw : Except String Firmware) (ss : Except String Sensors)
    (fails : MetricName → Bool)
    (h : ¬ timeSub now3 (refreshStep c s now1 now2 fw ss).1.cache.Time < c.CacheDuration) :
    (Collect c s now1 now2 now3 fw ss fails).metrics =
      [upMetricOf (refreshStep c s now1 now2 fw ss).1,
       errorsMetricOf (refreshStep c s now1 now2 fw ss).1] := by
  simp [Collect, h]

/-- Log lines produced by the refresh block also appear in the logs of the
whole Collect call. -/
theorem Collect_logs_mem (c : flowercareCollector) (s : CollectorState)
    (now1 now2 now3 : Int) (fw : Except String Firmware) (ss : Except String Sensors)
    (fails : MetricName → Bool) (l : String)
    (h : l ∈ (refreshStep c s now1 now2 fw ss).2) :
    l ∈ (Collect c s now1 now2 now3 fw ss fails).logs := by
  unfold Collect
  dsimp only
  split <;> simp [h]

/-- A successful readData stamps the capture time with the clock value it
was given. -/
theorem readData_time (now : Int) (fw : Except String Firmware) (ss : Except String Sensors)
    (d : sensorData) (h : readData now fw ss = Except.ok d) : d.Time = now := by
  unfold readData at h
  cases fw with
  | error e => simp at h
  | ok f =>
    cases ss with
    | error e => simp at h
    | ok sn =>
      simp only [Except.ok.injEq] at h
      rw [← h]

/-- Rows of the emission table that carry the timestamp name carry the
Unix-seconds capture time as their value. -/
theorem allRows_timestamp (d : sensorData) (row : MetricName × ℚ × List String)
    (h : row ∈ allRows d) (hn : row.1 = MetricName.scrapeTimestamp) :
    row.2.1 = ((timeUnix d.Time : Int) : ℚ) := by
  simp only [allRows, quantityRows, List.map_cons, List.map_nil, List.mem_cons,
    List.not_mem_nil, or_false] at h
  rcases h with rfl | rfl | rfl | rfl | rfl | rfl | rfl <;> simp_all

/-- Rows of the emission table that carry the conductivity name carry the
scaled conductivity as their value. -/
theorem allRows_conductivity (d : sensorData) (row : MetricName × ℚ × List String)
    (h : row ∈ allRows d) (hn : row.1 = MetricName.conductivitySm) :
    row.2.1 = (d.Sensors.Conductivity : ℚ) * factorConductivity := by
  simp only [allRows, quantityRows, List.map_cons, List.map_nil, List.mem_cons,
    List.not_mem_nil, or_false] at h
  rcases h with rfl | rfl | rfl | rfl | rfl | rfl | rfl <;> simp_all

/-- With a non-negative clock value, the age of the zero-valued cache time
saturates to the maximum duration. -/
theorem timeSub_goZero (now : Int) (h : 0 ≤ now) : timeSub now goZeroTimeNs = maxDuration := by
  simp only [timeSub, goZeroTimeNs, maxDuration, minDuration]
  omega

/-- Sensor data fixture used by the concrete witnesses: the end-to-end
scenario of the specification, captured 10 seconds after the epoch. -/
def dataEx : sensorData :=
  { Time := 10000000000,
    Firmware := { Version := "1.2", Battery := 80 },
    Sensors := { Temperature := 45 / 2, Moisture := 30, Light := 1200, Conductivity := 350 } }

/-- Collector fixture with the default cache duration of 2 minutes. -/
def cEx : flowercareCollector :=
  { MacAddress := "C4:7C:8D:60:00:01", Device := "hci0", CacheDuration := defaultCacheDuration }

/-- Collector state fixture holding the sensor data fixture. -/
def sEx : CollectorState := { cache := dataEx, upValue := 1, scrapeErrors := 0 }

/-- C1 counterexample: the claim that a construction failure at one metric
still lets every other metric of the pass be emitted is false.  With a
failure at the conductivity metric, the pass sends only the timestamp, the
info metric and the battery gauge; the brightness gauge (another metric of
the same pass, already computable) is not emitted. -/
theorem c1_counterexample :
    collectData (fun n => decide (n = MetricName.conductivitySm)) [] dataEx =
      ([{ name := MetricName.scrapeTimestamp, value := 10, labels := [] },
        { name := MetricName.info, value := 1, labels := ["1.2"] },
        { name := MetricName.batteryPercent, value := 80, labels := [] }],
       some errMsg) ∧
    ∀ m ∈ (collectData (fun n => decide (n = MetricName.conductivitySm)) [] dataEx).1,
      m.name ≠ MetricName.brightnessLux := by
  decide

/-- C1 (amended): when construction of one metric fails during the emission
pass, every metric already sent earlier in the pass remains sent and the
failing metric and every metric after it in the pass are skipped; the pass
reports an error exactly when some row fails. -/
theorem c1_partial_emission (fails : MetricName → Bool) (ch : List Metric) (data : sensorData) :
    (collectData fails ch data).1 =
      ch ++ ((allRows data).takeWhile (fun r => !fails r.1)).map mkMetric ∧
    ((collectData fails ch data).2 = none ↔
      (allRows data).all (fun r => !fails r.1) = true) := by
  rw [collectData_spec]
  refine ⟨rfl, ?_⟩
  by_cases h : (allRows data).all (fun r => !fails r.1) = true <;> simp [h]

/-- C2: with a fresh cache the snapshot emits the up gauge and the error
counter first, then the freshness timestamp, the info metric and the five
physical-quantity gauges in the fixed order battery, conductivity, light,
moisture, temperature; a construction failure partway keeps exactly the
rows before the failing one, the emission step hands the error back to its
caller, and the collector state, hence the up gauge and error counter
emitted beforehand, do not depend on the failure. -/
theorem c2_emission_order (c : flowercareCollector) (s : CollectorState)
    (now1 now2 now3 : Int) (fw : Except String Firmware) (ss : Except String Sensors)
    (fails : MetricName → Bool)
    (hskip : ¬ timeSub now1 s.cache.Time > c.CacheDuration)
    (hfresh : timeSub now3 s.cache.Time < c.CacheDuration) :
    (Collect c s now1 now2 now3 fw ss fails).metrics =
      [{ name := MetricName.up, value := s.upValue, labels := [] },
       { name := MetricName.scrapeErrorsTotal, value := (s.scrapeErrors : ℚ), labels := [] }] ++
      (([(MetricName.scrapeTimestamp, ((timeUnix s.cache.Time : Int) : ℚ), ([] : List String)),
         (MetricName.info, 1, [s.cache.Firmware.Version]),
         (MetricName.batteryPercent, (s.cache.Firmware.Battery : ℚ), []),
         (MetricName.conductivitySm, (s.cache.Sensors.Conductivity : ℚ) * factorConductivity, []),
         (MetricName.brightnessLux, (s.cache.Sensors.Light : ℚ), []),
         (MetricName.moisturePercent, (s.cache.Sensors.Moisture : ℚ), []),
         (MetricName.temperatureCelsius, s.cache.Sensors.Temperature, [])
        ].takeWhile (fun r => !fails r.1)).map mkMetric) ∧
    (Collect c s now1 now2 now3 fw ss fails).state = s ∧
    ((collectData fails [upMetricOf s, errorsMetricOf s] s.cache).2 = some errMsg ↔
      ¬ (allRows s.cache).all (fun r => !fails r.1) = true) := by
  have hs : refreshStep c s now1 now2 fw ss = (s, []) :=
    refreshStep_skip c s now1 now2 fw ss hskip
  have hm := Collect_metrics_fresh c s now1 now2 now3 fw ss fails (by rw [hs]; exact hfresh)
  refine ⟨?_, ?_, ?_⟩
  · rw [hm, hs, collectData_spec]
    rfl
  · rw [Collect_state, hs]
  · rw [collectData_spec]
    by_cases h : (allRows s.cache).all (fun r => !fails r.1) = true <;> simp [h]

/-- C2 witness: a concrete fresh-cache scrape with a conductivity failure. -/
theorem c2_witness :
    ¬ timeSub 11000000000 sEx.cache.Time > cEx.CacheDuration ∧
    timeSub 11000000000 sEx.cache.Time < cEx.CacheDuration ∧
    (Collect cEx sEx 11000000000 11000000000 11000000000 (Except.error "boom")
        (Except.error "boom") (fun n => decide (n = MetricName.conductivitySm))).state = sEx :=
  ⟨by decide, by decide,
   (c2_emission_order cEx sEx 11000000000 11000000000 11000000000 (Except.error "boom")
      (Except.error "boom") (fun n => decide (n = MetricName.conductivitySm))
      (by decide) (by decide)).2.1⟩

/-- C3: when the refresh attempt runs, a failed device read leaves the
cache record exactly as it was before the attempt, increments the error
counter by one, sets the up gauge to 0 and only logs the failure (Collect
is a total function, so nothing is raised to the caller of the snapshot);
a successful read replaces the cache with the new reading, sets the up
gauge to 1 and leaves the error counter unchanged. -/
theorem c3_refresh_outcome (c : flowercareCollector) (s : CollectorState)
    (now1 now2 now3 : Int) (fw : Except String Firmware) (ss : Except String Sensors)
    (fails : MetricName → Bool)
    (h : timeSub now1 s.cache.Time > c.CacheDuration) :
    match readData now2 fw ss with
    | Except.error e =>
        (Collect c s now1 now2 now3 fw ss fails).state.cache = s.cache ∧
        (Collect c s now1 now2 now3 fw ss fails).state.scrapeErrors = s.scrapeErrors + 1 ∧
        (Collect c s now1 now2 now3 fw ss fails).state.upValue = 0 ∧
        ("Error during scrape: " ++ e) ∈ (Collect c s now1 now2 now3 fw ss fails).logs
    | Except.ok d =>
        (Collect c s now1 now2 now3 fw ss fails).state.cache = d ∧
        (Collect c s now1 now2 now3 fw ss fails).state.upValue = 1 ∧
        (Collect c s now1 now2 now3 fw ss fails).state.scrapeErrors = s.scrapeErrors := by
  cases hr : readData now2 fw ss with
  | error e =>
    have hs := refreshStep_fail c s now1 now2 fw ss e h hr
    refine ⟨?_, ?_, ?_, ?_⟩
    · rw [Collect_state, hs]
    · rw [Collect_state, hs]
    · rw [Collect_state, hs]
    · exact Collect_logs_mem c s now1 now2 now3 fw ss fails _
        (by rw [hs]; exact List.mem_singleton_self _)
  | ok d =>
    have hs := refreshStep_ok c s now1 now2 fw ss d h hr
    exact ⟨by rw [Collect_state, hs], by rw [Collect_state, hs], by rw [Collect_state, hs]⟩

/-- C3 witness: a concrete stale-cache scrape whose device read fails. -/
theorem c3_witness :
    timeSub 200000000000 sEx.cache.Time > cEx.CacheDuration ∧
    (Collect cEx sEx 200000000000 200000000000 200000000000 (Except.error "boom")
        (Except.error "boom") (fun _ => false)).state.cache = sEx.cache ∧
    (Collect cEx sEx 200000000000 200000000000 200000000000 (Except.error "boom")
        (Except.error "boom") (fun _ => false)).state.scrapeErrors = sEx.scrapeErrors + 1 :=
  ⟨by decide,
   (c3_refresh_outcome cEx sEx 200000000000 200000000000 200000000000 (Except.error "boom")
      (Except.error "boom") (fun _ => false) (by decide)).1,
   (c3_refresh_outcome cEx sEx 200000000000 200000000000 200000000000 (Except.error "boom")
      (Except.error "boom") (fun _ => false) (by decide)).2.1⟩

/-- Collector fixture with the maximum representable cache duration. -/
def cMax : flowercareCollector :=
  { MacAddress := "C4:7C:8D:60:00:01", Device := "hci0", CacheDuration := maxDuration }

/-- C4 counterexample: the claim fails for the positive cache duration
2^63-1 nanoseconds.  In the initial never-fetched state the mathematical
age of the cache strictly exceeds that cache duration, yet the first
snapshot attempts no refresh: Go saturates the computed age at the maximum
int64 duration, the staleness comparison is false, and a failing device
read leaves the whole state (counter included) unchanged. -/
theorem c4_counterexample :
    (0 : Int) < cMax.CacheDuration ∧
    (0 : Int) - initialState.cache.Time > cMax.CacheDuration ∧
    (Collect cMax initialState 0 0 0 (Except.error "boom") (Except.error "boom")
        (fun _ => false)).state = initialState := by
  refine ⟨by decide, by decide, ?_⟩
  rw [Collect_state, refreshStep_skip cMax initialState 0 0 (Except.error "boom")
    (Except.error "boom") (by decide)]

/-- C4 (amended): a refresh is attempted if and only if the saturating
int64 age of the cache at the staleness check strictly exceeds the cache
duration; the never-fetched cache has an age that saturates to the maximum
duration, so the first snapshot attempts a refresh for every positive cache
duration strictly below the maximum representable duration.  The refresh
attempt is observed through the error counter of a failing device read. -/
theorem c4_refresh_iff (c : flowercareCollector) (s : CollectorState)
    (now1 now2 now3 : Int) (e : String) (ss : Except String Sensors)
    (fails : MetricName → Bool) :
    ((Collect c s now1 now2 now3 (Except.error e) ss fails).state.scrapeErrors =
        s.scrapeErrors + 1 ↔ timeSub now1 s.cache.Time > c.CacheDuration) ∧
    (0 ≤ now1 → s.cache.Time = goZeroTimeNs → c.CacheDuration < maxDuration →
      timeSub now1 s.cache.Time > c.CacheDuration) := by
  constructor
  · constructor
    · intro hinc
      by_contra hnot
      rw [Collect_state, refreshStep_skip c s now1 now2 (Except.error e) ss hnot] at hinc
      dsimp only at hinc
      omega
    · intro hgt
      rw [Collect_state, refreshStep_fail c s now1 now2 (Except.error e) ss
        ("can not read firmware: " ++ e) hgt rfl]
  · intro h0 hz hd
    rw [hz, timeSub_goZero now1 h0]
    exact hd

/-- C4 witness: with the default cache duration the first snapshot at clock
value 0 attempts a refresh. -/
theorem c4_witness :
    (0 : Int) ≤ 0 ∧ initialState.cache.Time = goZeroTimeNs ∧
    cEx.CacheDuration < maxDuration ∧
    timeSub 0 initialState.cache.Time > cEx.CacheDuration :=
  ⟨le_refl 0, rfl, by decide,
   (c4_refresh_iff cEx initialState 0 0 0 "boom" (Except.error "boom") (fun _ => false)).2
     (le_refl 0) rfl (by decide)⟩

/-- C10: with a non-positive cache duration, every snapshot whose clock
reads advance past the stored capture time attempts a refresh (observed as
a counter bump on failure and a cache replacement on success), and the
emitted metric set is always exactly the up gauge and the error counter:
no sensor-derived metric is ever emitted, because the freshness comparison
cannot hold even immediately after a successful refresh. -/
theorem c10_nonpositive_duration (c : flowercareCollector) (s : CollectorState)
    (now1 now2 now3 : Int) (fw : Except String Firmware) (ss : Except String Sensors)
    (fails : MetricName → Bool)
    (hD : c.CacheDuration ≤ 0)
    (h1 : s.cache.Time < now1) (h12 : now1 ≤ now2) (h23 : now2 ≤ now3) :
    (match readData now2 fw ss with
     | Except.error _ =>
        (Collect c s now1 now2 now3 fw ss fails).state.scrapeErrors = s.scrapeErrors + 1 ∧
        (Collect c s now1 now2 now3 fw ss fails).state.cache = s.cache
     | Except.ok d => (Collect c s now1 now2 now3 fw ss fails).state.cache = d) ∧
    (Collect c s now1 now2 now3 fw ss fails).metrics =
      [upMetricOf (Collect c s now1 now2 now3 fw ss fails).state,
       errorsMetricOf (Collect c s now1 now2 now3 fw ss fails).state] := by
  have hgt : timeSub now1 s.cache.Time > c.CacheDuration := by
    simp only [timeSub, maxDuration, minDuration]
    omega
  cases hr : readData now2 fw ss with
  | error e =>
    have hs := refreshStep_fail c s now1 now2 fw ss e hgt hr
    refine ⟨⟨by rw [Collect_state, hs], by rw [Collect_state, hs]⟩, ?_⟩
    rw [Collect_state]
    refine Collect_metrics_stale c s now1 now2 now3 fw ss fails ?_
    rw [hs]
    show ¬ timeSub now3 s.cache.Time < c.CacheDuration
    simp only [timeSub, maxDuration, minDuration]
    omega
  | ok d =>
    have hd : d.Time = now2 := readData_time now2 fw ss d hr
    have hs := refreshStep_ok c s now1 now2 fw ss d hgt hr
    refine ⟨by rw [Collect_state, hs], ?_⟩
    rw [Collect_state]
    refine Collect_metrics_stale c s now1 now2 now3 fw ss fails ?_
    rw [hs]
    show ¬ timeSub now3 d.Time < c.CacheDuration
    rw [hd]
    simp only [timeSub, maxDuration, minDuration]
    omega

/-- C10 witness: cache duration 0, strictly advancing clock, failing read. -/
theorem c10_witness :
    ({ MacAddress := "aa", Device := "hci0", CacheDuration := 0 } :
        flowercareCollector).CacheDuration ≤ 0 ∧
    sEx.cache.Time < 11000000000 ∧
    (Collect { MacAddress := "aa", Device := "hci0", CacheDuration := 0 } sEx
        11000000000 12000000000 13000000000 (Except.error "boom") (Except.error "boom")
        (fun _ => false)).metrics =
      [upMetricOf (Collect { MacAddress := "aa", Device := "hci0", CacheDuration := 0 } sEx
          11000000000 12000000000 13000000000 (Except.error "boom") (Except.error "boom")
          (fun _ => false)).state,
       errorsMetricOf (Collect { MacAddress := "aa", Device := "hci0", CacheDuration := 0 } sEx
          11000000000 12000000000 13000000000 (Except.error "boom") (Except.error "boom")
          (fun _ => false)).state] :=
  ⟨by decide, by decide,
   (c10_nonpositive_duration { MacAddress := "aa", Device := "hci0", CacheDuration := 0 } sEx
      11000000000 12000000000 13000000000 (Except.error "boom") (Except.error "boom")
      (fun _ => false) (by decide) (by decide) (by decide) (by decide)).2⟩

/-- First component of the collectData characterization. -/
theorem collectData_fst (fails : MetricName → Bool) (ch : List Metric) (data : sensorData) :
    (collectData fails ch data).1 =
      ch ++ ((allRows data).takeWhile (fun r => !fails r.1)).map mkMetric := by
  rw [collectData_spec]

/-- C5: in every emitted metric set the freshness-timestamp metric value is
the cached capture time in whole Unix seconds (floor division, which agrees
with truncation toward zero on the non-negative capture times that occur);
sensor-derived metrics appear only when the re-checked cache age is
strictly below the cache duration and the cache holds a reading (its
capture time is not the never-fetched zero value); otherwise the emitted
set is exactly the up gauge followed by the error counter. -/
theorem c5_freshness_invariant (c : flowercareCollector) (s : CollectorState)
    (now1 now2 now3 : Int) (fw : Except String Firmware) (ss : Except String Sensors)
    (fails : MetricName → Bool)
    (hnow : 0 ≤ now3) (hdur : c.CacheDuration ≤ maxDuration) :
    (∀ m ∈ (Collect c s now1 now2 now3 fw ss fails).metrics,
        m.name = MetricName.scrapeTimestamp →
        m.value =
          ((timeUnix (Collect c s now1 now2 now3 fw ss fails).state.cache.Time : Int) : ℚ)) ∧
    (∀ t : Int, 0 ≤ t → timeUnix t = Int.tdiv t nsPerSecond) ∧
    (¬ timeSub now3 (Collect c s now1 now2 now3 fw ss fails).state.cache.Time <
        c.CacheDuration →
      (Collect c s now1 now2 now3 fw ss fails).metrics =
        [upMetricOf (Collect c s now1 now2 now3 fw ss fails).state,
         errorsMetricOf (Collect c s now1 now2 now3 fw ss fails).state]) ∧
    (∀ m ∈ (Collect c s now1 now2 now3 fw ss fails).metrics,
        m.name ≠ MetricName.up → m.name ≠ MetricName.scrapeErrorsTotal →
        timeSub now3 (Collect c s now1 now2 now3 fw ss fails).state.cache.Time <
          c.CacheDuration ∧
        (Collect c s now1 now2 now3 fw ss fails).state.cache.Time ≠ goZeroTimeNs) := by
  rw [Collect_state]
  have hunix : ∀ t : Int, 0 ≤ t → timeUnix t = Int.tdiv t nsPerSecond := by
    intro t ht
    unfold timeUnix nsPerSecond
    rw [Int.fdiv_eq_ediv, Int.tdiv_eq_ediv] <;> omega
  by_cases hf : timeSub now3 (refreshStep c s now1 now2 fw ss).1.cache.Time < c.CacheDuration
  · have hm := Collect_metrics_fresh c s now1 now2 now3 fw ss fails hf
    rw [collectData_fst] at hm
    have hzero : (refreshStep c s now1 now2 fw ss).1.cache.Time ≠ goZeroTimeNs := by
      intro h0
      rw [h0, timeSub_goZero now3 hnow] at hf
      omega
    refine ⟨?_, hunix, ?_, ?_⟩
    · intro m hm2 hname
      rw [hm] at hm2
      rcases List.mem_append.mp hm2 with h | h
      · simp only [upMetricOf, errorsMetricOf, List.mem_cons, List.not_mem_nil,
          or_false] at h
        rcases h with rfl | rfl <;> simp at hname
      · obtain ⟨row, hrow, rfl⟩ := List.mem_map.mp h
        have hmem := List.Sublist.mem hrow (List.takeWhile_sublist _)
        exact allRows_timestamp _ row hmem hname
    · intro hstale
      exact absurd hf hstale
    · intro m _ _ _
      exact ⟨hf, hzero⟩
  · have hm := Collect_metrics_stale c s now1 now2 now3 fw ss fails hf
    refine ⟨?_, hunix, fun _ => hm, ?_⟩
    · intro m hm2 hname
      rw [hm] at hm2
      simp only [upMetricOf, errorsMetricOf, List.mem_cons, List.not_mem_nil, or_false] at hm2
      rcases hm2 with rfl | rfl <;> simp at hname
    · intro m hm2 hu he
      rw [hm] at hm2
      simp only [upMetricOf, errorsMetricOf, List.mem_cons, List.not_mem_nil, or_false] at hm2
      rcases hm2 with rfl | rfl
      · simp at hu
      · simp at he

/-- C5 witness: a stale scrape with a failing device read emits exactly the
up gauge and the error counter. -/
theorem c5_witness :
    (0 : Int) ≤ 200000000000 ∧ cEx.CacheDuration ≤ maxDuration ∧
    ¬ timeSub 200000000000 (Collect cEx sEx 200000000000 200000000000 200000000000
        (Except.error "boom") (Except.error "boom") (fun _ => false)).state.cache.Time <
      cEx.CacheDuration ∧
    (Collect cEx sEx 200000000000 200000000000 200000000000 (Except.error "boom")
        (Except.error "boom") (fun _ => false)).metrics =
      [upMetricOf (Collect cEx sEx 200000000000 200000000000 200000000000
          (Except.error "boom") (Except.error "boom") (fun _ => false)).state,
       errorsMetricOf (Collect cEx sEx 200000000000 200000000000 200000000000
          (Except.error "boom") (Except.error "boom") (fun _ => false)).state] :=
  ⟨by decide, by decide, by decide,
   (c5_freshness_invariant cEx sEx 200000000000 200000000000 200000000000
      (Except.error "boom") (Except.error "boom") (fun _ => false)
      (by decide) (by decide)).2.2.1 (by decide)⟩

/-- C6: every conductivity metric in the emission output carries exactly
the device value scaled by the fixed factor 1/10000 (the source literal
0.0001, exact under the rational model of float64), uniformly in the input
value, hence including 0 and arbitrarily large values; and when no metric
construction fails the scaled conductivity metric is indeed emitted. -/
theorem c6_conductivity (data : sensorData) (fails : MetricName → Bool) (ch : List Metric)
    (hch : ∀ m ∈ ch, m.name ≠ MetricName.conductivitySm) :
    (∀ m ∈ (collectData fails ch data).1, m.name = MetricName.conductivitySm →
        m.value = (data.Sensors.Conductivity : ℚ) * factorConductivity) ∧
    factorConductivity = 1 / 10000 ∧
    ((∀ n, fails n = false) →
      { name := MetricName.conductivitySm,
        value := (data.Sensors.Conductivity : ℚ) * factorConductivity,
        labels := ([] : List String) } ∈ (collectData fails ch data).1) := by
  refine ⟨?_, rfl, ?_⟩
  · intro m hm hname
    rw [collectData_fst] at hm
    rcases List.mem_append.mp hm with h | h
    · exact absurd hname (hch m h)
    · obtain ⟨row, hrow, rfl⟩ := List.mem_map.mp h
      have hmem := List.Sublist.mem hrow (List.takeWhile_sublist _)
      exact allRows_conductivity data row hmem hname
  · intro hnone
    rw [collectData_fst]
    refine List.mem_append.mpr (Or.inr ?_)
    have htw : (allRows data).takeWhile (fun r => !fails r.1) = allRows data :=
      List.takeWhile_eq_self_iff.mpr (fun x _ => by simp [hnone])
    rw [htw]
    refine List.mem_map.mpr
      ⟨(MetricName.conductivitySm, (data.Sensors.Conductivity : ℚ) * factorConductivity,
        ([] : List String)), ?_, rfl⟩
    simp [allRows, quantityRows]

/-- C6 witness: with no construction failures the conductivity value 350 is
exposed as 350 / 10000. -/
theorem c6_witness :
    (∀ m ∈ ([] : List Metric), m.name ≠ MetricName.conductivitySm) ∧
    { name := MetricName.conductivitySm,
      value := (dataEx.Sensors.Conductivity : ℚ) * factorConductivity,
      labels := ([] : List String) } ∈ (collectData (fun _ => false) [] dataEx).1 ∧
    (dataEx.Sensors.Conductivity : ℚ) * factorConductivity = 7 / 200 :=
  ⟨fun m hm => absurd hm (List.not_mem_nil m),
   (c6_conductivity dataEx (fun _ => false) []
      (fun m hm => absurd hm (List.not_mem_nil m))).2.2 (fun _ => rfl),
   by norm_num [dataEx, factorConductivity]⟩

/-- Error counter change of a single Collect call: plus one exactly when
the refresh runs and the device read fails, otherwise unchanged. -/
theorem Collect_scrapeErrors (c : flowercareCollector) (s : CollectorState)
    (now1 now2 now3 : Int) (fw : Except String Firmware) (ss : Except String Sensors)
    (fails : MetricName → Bool) :
    (Collect c s now1 now2 now3 fw ss fails).state.scrapeErrors =
      s.scrapeErrors +
        (if timeSub now1 s.cache.Time > c.CacheDuration ∧
            (readData now2 fw ss).isOk = false then 1 else 0) := by
  by_cases hc : timeSub now1 s.cache.Time > c.CacheDuration
  · cases hrd : readData now2 fw ss with
    | error e =>
      rw [Collect_state, refreshStep_fail c s now1 now2 fw ss e hc hrd]
      simp [hc, Except.isOk, Except.toBool]
    | ok d =>
      rw [Collect_state, refreshStep_ok c s now1 now2 fw ss d hc hrd]
      simp [Except.isOk, Except.toBool]
  · rw [Collect_state, refreshStep_skip c s now1 now2 fw ss hc]
    simp [hc]

/-- C7: the error counter grows by exactly one on each snapshot whose
refresh attempt fails, is unchanged by every other snapshot, and is
monotonically non-decreasing along every sequence of snapshots. -/
theorem c7_error_counter (c : flowercareCollector) :
    (∀ (s : CollectorState) (now1 now2 now3 : Int) (fw : Except String Firmware)
        (ss : Except String Sensors) (fails : MetricName → Bool),
      (Collect c s now1 now2 now3 fw ss fails).state.scrapeErrors =
        s.scrapeErrors +
          (if timeSub now1 s.cache.Time > c.CacheDuration ∧
              (readData now2 fw ss).isOk = false then 1 else 0)) ∧
    (∀ (s : CollectorState) (events : List ScrapeEvent),
      s.scrapeErrors ≤ (runTrace c s events).scrapeErrors) := by
  refine ⟨fun s now1 now2 now3 fw ss fails =>
    Collect_scrapeErrors c s now1 now2 now3 fw ss fails, ?_⟩
  intro s events
  induction events generalizing s with
  | nil => exact le_refl _
  | cons ev rest ih =>
    have h1 : s.scrapeErrors ≤
        (Collect c s ev.now1 ev.now2 ev.now3 ev.fw ev.ss ev.fails).state.scrapeErrors := by
      rw [Collect_scrapeErrors]
      exact Nat.le_add_right _ _
    exact le_trans h1 (ih _)

/-- C8: two snapshots whose staleness checks and freshness re-checks all
fall inside the cache window leave the state untouched and emit identical
metric lists, whatever the device reader would have answered. -/
theorem c8_idempotent_window (c : flowercareCollector) (s : CollectorState)
    (nowA1 nowA2 nowA3 nowB1 nowB2 nowB3 : Int)
    (fwA fwB : Except String Firmware) (ssA ssB : Except String Sensors)
    (fails : MetricName → Bool)
    (hA1 : timeSub nowA1 s.cache.Time < c.CacheDuration)
    (hA3 : timeSub nowA3 s.cache.Time < c.CacheDuration)
    (hB1 : timeSub nowB1 s.cache.Time < c.CacheDuration)
    (hB3 : timeSub nowB3 s.cache.Time < c.CacheDuration) :
    (Collect c s nowA1 nowA2 nowA3 fwA ssA fails).state = s ∧
    (Collect c (Collect c s nowA1 nowA2 nowA3 fwA ssA fails).state nowB1 nowB2 nowB3
        fwB ssB fails).metrics =
      (Collect c s nowA1 nowA2 nowA3 fwA ssA fails).metrics := by
  have hsA : refreshStep c s nowA1 nowA2 fwA ssA = (s, []) :=
    refreshStep_skip c s nowA1 nowA2 fwA ssA (lt_asymm hA1)
  have hsB : refreshStep c s nowB1 nowB2 fwB ssB = (s, []) :=
    refreshStep_skip c s nowB1 nowB2 fwB ssB (lt_asymm hB1)
  have hstA : (Collect c s nowA1 nowA2 nowA3 fwA ssA fails).state = s := by
    rw [Collect_state, hsA]
  have hmA := Collect_metrics_fresh c s nowA1 nowA2 nowA3 fwA ssA fails
    (by rw [hsA]; exact hA3)
  have hmB := Collect_metrics_fresh c s nowB1 nowB2 nowB3 fwB ssB fails
    (by rw [hsB]; exact hB3)
  refine ⟨hstA, ?_⟩
  rw [hstA, hmB, hmA, hsA, hsB]

/-- C8 witness: two concrete scrapes 9 seconds apart inside the 2-minute
window emit the same metric list. -/
theorem c8_witness :
    timeSub 11000000000 sEx.cache.Time < cEx.CacheDuration ∧
    timeSub 20000000000 sEx.cache.Time < cEx.CacheDuration ∧
    (Collect cEx (Collect cEx sEx 11000000000 11000000000 11000000000 (Except.error "a")
        (Except.error "a") (fun _ => false)).state 20000000000 20000000000 20000000000
        (Except.error "b") (Except.error "b") (fun _ => false)).metrics =
      (Collect cEx sEx 11000000000 11000000000 11000000000 (Except.error "a")
        (Except.error "a") (fun _ => false)).metrics :=
  ⟨by decide, by decide,
   (c8_idempotent_window cEx sEx 11000000000 11000000000 11000000000 20000000000
      20000000000 20000000000 (Except.error "a") (Except.error "b") (Except.error "a")
      (Except.error "b") (fun _ => false) (by decide) (by decide) (by decide)
      (by decide)).2⟩

/-- C9: startup validates the configuration before any device or network
activity: an empty device address or an empty adapter identifier makes
parseConfig fail and main stop at a configuration error, never reaching
the started outcome; and when the cache-duration flag is absent a parsed
configuration carries the positive default of 2 minutes. -/
theorem c9_startup_validation (addr mac dev : Option String) (cd : Option Int) :
    ((mac.getD "").length = 0 ∨ (dev.getD "hci0").length = 0 →
      ∃ e, parseConfig addr mac dev cd = Except.error e ∧
        mainRun addr mac dev cd = MainOutcome.configError e) ∧
    (∀ cfg, mainRun addr mac dev cd = MainOutcome.started cfg →
      cfg.MacAddress.length ≠ 0 ∧ cfg.Device.length ≠ 0) ∧
    (cd = none → ∀ cfg, parseConfig addr mac dev cd = Except.ok cfg →
      cfg.CacheDuration = defaultCacheDuration ∧ 0 < cfg.CacheDuration) := by
  refine ⟨?_, ?_, ?_⟩
  · intro h
    by_cases hm : (mac.getD "").length = 0
    · exact ⟨"need to provide a device address", by simp [parseConfig, hm],
        by simp [mainRun, parseConfig, hm]⟩
    · rcases h with h | h
      · exact absurd h hm
      · exact ⟨"need to provide a bluetooth device", by simp [parseConfig, hm, h],
          by simp [mainRun, parseConfig, hm, h]⟩
  · intro cfg hcfg
    unfold mainRun parseConfig at hcfg
    by_cases hm : (mac.getD "").length = 0
    · simp [hm] at hcfg
    · by_cases hd : (dev.getD "hci0").length = 0
      · simp [hm, hd] at hcfg
      · simp only [hm, hd, if_false, if_neg] at hcfg
        cases hcfg
        exact ⟨hm, hd⟩
  · intro hcd cfg hcfg
    subst hcd
    unfold parseConfig at hcfg
    by_cases hm : (mac.getD "").length = 0
    · simp [hm] at hcfg
    · by_cases hd : (dev.getD "hci0").length = 0
      · simp [hm, hd] at hcfg
      · simp only [hm, hd, if_false, if_neg] at hcfg
        cases hcfg
        refine ⟨rfl, ?_⟩
        show (0 : Int) < defaultCacheDuration
        decide

/-- C9 witness: an explicitly empty device address stops startup with a
configuration error. -/
theorem c9_witness :
    (((some "" : Option String).getD "").length = 0 ∨
      ((some "hci0" : Option String).getD "hci0").length = 0) ∧
    ∃ e, parseConfig none (some "") (some "hci0") none = Except.error e ∧
      mainRun none (some "") (some "hci0") none = MainOutcome.configError e :=
  ⟨Or.inl rfl,
   (c9_startup_validation none (some "") (some "hci0") none).1 (Or.inl rfl)⟩

end Flowercare
